import Mathlib

/-!
Verification of the key-mapper daemon orchestration core, a shallow embedding
of `src/keymapper/daemon.py`: device-identity resolution
(`path_to_device_name`), the autoload debounce history (`AutoloadHistory`),
the registry refresh rate limiting (`Daemon.refresh_devices`), and the
start/stop lifecycle of injection pipelines (`Daemon.start_injecting`,
`Daemon.stop_injecting`, `Daemon.stop_all`, `Daemon.set_config_dir`,
`Daemon._autoload`).

Wall-clock time is modelled as a rational number; every operation that reads
`time.time()` takes the current time `now` as an explicit argument. External
collaborators (the filesystem, the device enumeration a forced refresh would
produce, parsed configuration files) are modelled by an `Env` record. Python
dictionaries are modelled as association lists with unique-key lookup
semantics.
-/

namespace KeyMapper

/-- Wall-clock time as read from `time.time()`. -/
abbrev Time := ℚ

/-- Dictionary lookup, `d.get(k)`: the value of the first entry stored under
`k` (python dicts hold each key at most once). -/
def alookup {α : Type} (k : String) : List (String × α) → Option α
  | [] => none
  | (k', v) :: rest => if k' = k then some v else alookup k rest

/-- Dictionary update, `d[k] = v`: overwrite in place (python dicts keep the
insertion-order position of an updated key), or append a new entry. -/
def aupsert {α : Type} (k : String) (v : α) : List (String × α) → List (String × α)
  | [] => [(k, v)]
  | (k', v') :: rest =>
    if k' = k then (k, v) :: rest else (k', v') :: aupsert k v rest

/-- Dictionary deletion, `del d[k]`: drop every entry stored under `k`. -/
def aerase {α : Type} (k : String) : List (String × α) → List (String × α)
  | [] => []
  | (k', v) :: rest => if k' = k then aerase k rest else (k', v) :: aerase k rest

/-- Dictionary key list, `list(d.keys())`. -/
def akeys {α : Type} (l : List (String × α)) : List String := l.map Prod.fst

/-- Lifecycle state of one `Injector` (external collaborator, spec section 6).
A freshly constructed and started injector reports `STARTING`, later
`RUNNING`; `Injector.stop_injecting()` moves it to `STOPPED`. -/
inductive InjectorState
  | starting
  | running
  | stopped
deriving DecidableEq

/-- Result codes of `Daemon.get_state`: the injector state, or `UNKNOWN`
when no injector is registered for the device. -/
inductive StateCode
  | unknown
  | starting
  | running
  | stopped
deriving DecidableEq

/-- A value stored under the autoload key of a device in `config.json`
(read by `config.get` with the key path autoload, device): a preset
name string, or a malformed non-string value left behind by a previous bug
(the `isinstance(preset, str)` check in `Daemon._autoload`). -/
inductive ConfigValue
  | str (preset : String)
  | malformed
deriving DecidableEq

/-- External collaborators of the daemon: the set of existing filesystem
paths, the device enumeration that a forced `refresh_devices()` (module
level, from `keymapper.getdevices`) would install, and the parsed autoload
table of the `config.json` found at a given path. -/
structure Env where
  files : List String
  freshDevices : List (String × List String)
  configAt : String → List (String × ConfigValue)

/-- The mutable state touched by the daemon: `Daemon.injectors`,
`Daemon.config_dir`, `AutoloadHistory._autoload_history`,
`Daemon.refreshed_devices_at`, the process-wide `get_devices()` snapshot
(device name mapped to its raw path list), and the loaded autoload table of
the global `config` object. -/
structure DaemonState where
  injectors : List (String × InjectorState)
  config_dir : Option String
  autoload_history : List (String × (Time × String))
  refreshed_devices_at : Time
  devices : List (String × List String)
  autoload_config : List (String × ConfigValue)
deriving DecidableEq

/-- Models python `s.startswith(pre)` (character-wise prefix test). -/
def startswith (s pre : String) : Bool := pre.data.isPrefixOf s.data

/-- Scan loop of `path_to_device_name`: the first device group whose path
list contains `path`. -/
def findGroup (path : String) : List (String × List String) → Option String
  | [] => none
  | (name, paths) :: rest =>
    if path ∈ paths then some name else findGroup path rest

/-- Models `path_to_device_name(path)`: an identifier that does not start
with the raw device path marker is already the name and is returned
unchanged; otherwise the device groups are scanned for the path, yielding
`None` when no group contains it. -/
def path_to_device_name (devices : List (String × List String))
    (path : String) : Option String :=
  if startswith path "/dev/input/" then findGroup path devices else some path

/-- Models `AutoloadHistory.remember(device, preset)`: store `(now, preset)`
for the device, overwriting any prior entry. -/
def remember (now : Time) (device preset : String)
    (history : List (String × (Time × String))) :
    List (String × (Time × String)) :=
  aupsert device (now, preset) history

/-- Models `AutoloadHistory.forget(device)`: delete the entry of the device,
a no-op when none exists. -/
def forget (device : String) (history : List (String × (Time × String))) :
    List (String × (Time × String)) :=
  aerase device history

/-- Models `AutoloadHistory.may_autoload(device, preset)`: true when no
entry exists, when the stored preset differs, or when the stored timestamp
is strictly older than `now` minus the 15 second threshold; false
otherwise. -/
def may_autoload (now : Time)
    (history : List (String × (Time × String))) (device preset : String) :
    Bool :=
  match alookup device history with
  | none => true
  | some (t, p) =>
    if p ≠ preset then true
    else if t < now - 15 then true
    else false

/-- Raw path scan used by `Daemon.refresh_devices`: whether any device
group of the snapshot lists `path` among its raw paths. -/
def pathKnown (devices : List (String × List String)) (path : String) :
    Bool :=
  devices.any (fun g => decide (path ∈ g.2))

/-- Models `Daemon.refresh_devices(device=None)`. The returned flag records
whether a forced registry refresh happened; a forced refresh installs
`env.freshDevices` and sets `refreshed_devices_at` to `now`. -/
def refresh_devices (env : Env) (now : Time) (s : DaemonState)
    (device : Option String) : Bool × DaemonState :=
  if s.refreshed_devices_at < now - 10 then
    (true, { s with devices := env.freshDevices, refreshed_devices_at := now })
  else
    match device with
    | none => (false, s)
    | some d =>
      if startswith d "/dev/input/" then
        if pathKnown s.devices d then (false, s)
        else
          (true,
           { s with devices := env.freshDevices, refreshed_devices_at := now })
      else
        if alookup d s.devices = none then
          (true,
           { s with devices := env.freshDevices, refreshed_devices_at := now })
        else (false, s)

/-- Models `Daemon.stop_injecting(device)`: when no injector is registered,
log and return; otherwise tell the injector to stop (its registry entry
remains, now in the stopped state) and forget the autoload history of the
device. -/
def stop_injecting (s : DaemonState) (device : String) : DaemonState :=
  match alookup device s.injectors with
  | none => s
  | some _ =>
    { s with
      injectors := aupsert device InjectorState.stopped s.injectors,
      autoload_history := forget device s.autoload_history }

/-- Models `Daemon.get_state(device)`. -/
def get_state (s : DaemonState) (device : String) : StateCode :=
  match alookup device s.injectors with
  | none => StateCode.unknown
  | some InjectorState.starting => StateCode.starting
  | some InjectorState.running => StateCode.running
  | some InjectorState.stopped => StateCode.stopped

/-- Models `Daemon.set_config_dir(config_dir)`: when `config.json` does not
exist inside the directory, log and return; otherwise install the directory
and load the configuration found there. -/
def set_config_dir (env : Env) (s : DaemonState) (config_dir : String) :
    DaemonState :=
  if (config_dir ++ "/config.json") ∈ env.files then
    { s with
      config_dir := some config_dir,
      autoload_config := env.configAt (config_dir ++ "/config.json") }
  else s

/-- Preset file location used by `Daemon.start_injecting`:
`os.path.join` of the config dir, the presets folder, the device, and the
preset name with a json extension. -/
def preset_path (config_dir device preset : String) : String :=
  config_dir ++ "/presets/" ++ device ++ "/" ++ preset ++ ".json"

/-- Models `Daemon.start_injecting(device, preset)`. Steps, in source
order: refresh on demand; resolve the identifier; fail when no config dir
is set; fail when the resolved device is unknown to the registry; fail when
the preset file does not exist; stop a previously registered injector;
construct, start and register a new injector. The `xmodmap` read only
updates the process-wide keycode-name table (best-effort, not part of the
daemon state modelled here); injector construction is modelled as
succeeding, the python `OSError` branch being noted in the source as
believed dead. -/
def start_injecting (env : Env) (now : Time) (s : DaemonState)
    (device preset : String) : Bool × DaemonState :=
  let s1 := (refresh_devices env now s (some device)).2
  match s1.config_dir, path_to_device_name s1.devices device with
  | none, _ => (false, s1)
  | some _, none => (false, s1)
  | some cdir, some dev =>
    if alookup dev s1.devices = none then (false, s1)
    else if preset_path cdir dev preset ∈ env.files then
      let s2 :=
        if (alookup dev s1.injectors).isSome then stop_injecting s1 dev
        else s1
      (true,
       { s2 with injectors := aupsert dev InjectorState.starting s2.injectors })
    else (false, s1)

/-- Models `Daemon._autoload(device)`. The returned flag records whether
`start_injecting` was invoked by this call. In source order: refresh on
demand; resolve; return when the device is not in the registry; return when
no autoload preset is configured; on a malformed non-string preset value,
remove it from the configuration and persist; return when `may_autoload`
denies; otherwise invoke `start_injecting` and then `remember` the attempt
(python reads `time.time()` again inside `remember`, modelled by the same
`now` of this call). -/
def autoload_device (env : Env) (now : Time) (s : DaemonState)
    (device : String) : Bool × DaemonState :=
  let s1 := (refresh_devices env now s (some device)).2
  match path_to_device_name s1.devices device with
  | none => (false, s1)
  | some dev =>
    if alookup dev s1.devices = none then (false, s1)
    else
      match alookup dev s1.autoload_config with
      | none => (false, s1)
      | some ConfigValue.malformed =>
        (false, { s1 with autoload_config := aerase dev s1.autoload_config })
      | some (ConfigValue.str preset) =>
        if may_autoload now s1.autoload_history dev preset then
          let s2 := (start_injecting env now s1 dev preset).2
          (true,
           { s2 with
             autoload_history := remember now dev preset s2.autoload_history })
        else (false, s1)

/-- Models `Daemon.stop_all()`: `stop_injecting` for every key of the
injector registry (the key list is snapshotted before the loop, and
`stop_injecting` never changes the key set). -/
def stop_all (s : DaemonState) : DaemonState :=
  (akeys s.injectors).foldl stop_injecting s

/-- Example device registry used by concrete witnesses: one device named
`kbd`, reachable through one raw path. -/
def exDevices : List (String × List String) :=
  [("kbd", ["/dev/input/event3"])]

/-- Example environment used by concrete witnesses. -/
def exEnv : Env :=
  { files := ["/cfg/config.json", "/cfg/presets/kbd/p1.json"],
    freshDevices := exDevices,
    configAt := fun _ => [("kbd", ConfigValue.str "p1")] }

/-- Example daemon state with a running injector for `kbd`. -/
def exRunning : DaemonState :=
  { injectors := [("kbd", InjectorState.running)],
    config_dir := some "/cfg",
    autoload_history := [("kbd", (0, "p1"))],
    refreshed_devices_at := 0,
    devices := exDevices,
    autoload_config := [("kbd", ConfigValue.str "p1")] }

/-- Example daemon state with no injectors and an empty history. -/
def exIdle : DaemonState :=
  { injectors := [],
    config_dir := some "/cfg",
    autoload_history := [],
    refreshed_devices_at := 0,
    devices := exDevices,
    autoload_config := [("kbd", ConfigValue.str "p1")] }

/-- Example daemon state with no configuration directory set. -/
def exNoCfg : DaemonState :=
  { injectors := [],
    config_dir := none,
    autoload_history := [],
    refreshed_devices_at := 0,
    devices := exDevices,
    autoload_config := [] }

/-- The forcing condition of the registry refresh as the spec states it:
more than 10 seconds elapsed since the last forced refresh, or a supplied
device identifier that cannot be located in the current registry snapshot —
by raw path membership for path-shaped identifiers, by logical-name lookup
otherwise. -/
def refresh_forced_spec (s : DaemonState) (now : Time)
    (device : Option String) : Prop :=
  10 < now - s.refreshed_devices_at ∨
    ∃ d, device = some d ∧
      (if startswith d "/dev/input/" then pathKnown s.devices d = false
       else alookup d s.devices = none)

theorem alookup_aupsert {α : Type} (k k' : String) (v : α)
    (l : List (String × α)) :
    alookup k (aupsert k' v l) = if k' = k then some v else alookup k l := by
  induction l with
  | nil => simp [aupsert, alookup]
  | cons hd tl ih =>
    obtain ⟨a, b⟩ := hd
    by_cases h1 : a = k'
    · rw [show aupsert k' v ((a, b) :: tl) = (k', v) :: tl from by
        simp [aupsert, h1]]
      by_cases h2 : k' = k
      · simp [alookup, h2]
      · have h3 : ¬ a = k := fun hh => h2 (h1.symm.trans hh)
        simp [alookup, h2, h3]
    · rw [show aupsert k' v ((a, b) :: tl) = (a, b) :: aupsert k' v tl from by
        simp [aupsert, h1]]
      by_cases h3 : a = k
      · have h2 : ¬ k' = k := fun hh => h1 (h3.trans hh.symm)
        simp [alookup, h3, h2]
      · simp [alookup, h3, ih]

theorem alookup_aerase {α : Type} (k k' : String) (l : List (String × α)) :
    alookup k (aerase k' l) = if k' = k then none else alookup k l := by
  induction l with
  | nil => simp [aerase, alookup]
  | cons hd tl ih =>
    obtain ⟨a, b⟩ := hd
    by_cases h1 : a = k'
    · rw [show aerase k' ((a, b) :: tl) = aerase k' tl from by
        simp [aerase, h1]]
      rw [ih]
      by_cases h2 : k' = k
      · simp [h2]
      · have h3 : ¬ a = k := fun hh => h2 (h1.symm.trans hh)
        simp [alookup, h2, h3]
    · rw [show aerase k' ((a, b) :: tl) = (a, b) :: aerase k' tl from by
        simp [aerase, h1]]
      by_cases h3 : a = k
      · have h2 : ¬ k' = k := fun hh => h1 (h3.trans hh.symm)
        simp [alookup, h3, h2]
      · simp [alookup, h3, ih]

theorem alookup_mem_akeys {α : Type} {k : String} {l : List (String × α)}
    {v : α} (h : alookup k l = some v) : k ∈ akeys l := by
  induction l with
  | nil => simp [alookup] at h
  | cons hd tl ih =>
    obtain ⟨a, b⟩ := hd
    by_cases h1 : a = k
    · simp [akeys, h1]
    · simp only [alookup, h1, if_false] at h
      simp only [akeys, List.map_cons, List.mem_cons]
      exact Or.inr (by simpa [akeys] using ih h)

theorem refresh_devices_snd (env : Env) (now : Time) (s : DaemonState)
    (device : Option String) :
    (refresh_devices env now s device).2 =
      if (refresh_devices env now s device).1 then
        { s with devices := env.freshDevices, refreshed_devices_at := now }
      else s := by
  cases device with
  | none => unfold refresh_devices; split <;> rfl
  | some d =>
    unfold refresh_devices
    split
    · rfl
    · dsimp only
      split <;> split <;> rfl

theorem refresh_devices_injectors (env : Env) (now : Time) (s : DaemonState)
    (device : Option String) :
    (refresh_devices env now s device).2.injectors = s.injectors := by
  rw [refresh_devices_snd]; split <;> rfl

theorem refresh_devices_config_dir (env : Env) (now : Time) (s : DaemonState)
    (device : Option String) :
    (refresh_devices env now s device).2.config_dir = s.config_dir := by
  rw [refresh_devices_snd]; split <;> rfl

theorem refresh_devices_history (env : Env) (now : Time) (s : DaemonState)
    (device : Option String) :
    (refresh_devices env now s device).2.autoload_history =
      s.autoload_history := by
  rw [refresh_devices_snd]; split <;> rfl

theorem refresh_devices_autoload_config (env : Env) (now : Time)
    (s : DaemonState) (device : Option String) :
    (refresh_devices env now s device).2.autoload_config =
      s.autoload_config := by
  rw [refresh_devices_snd]; split <;> rfl

theorem refresh_devices_devices (env : Env) (now : Time) (s : DaemonState)
    (device : Option String) :
    (refresh_devices env now s device).2.devices = s.devices ∨
      (refresh_devices env now s device).2.devices = env.freshDevices := by
  rw [refresh_devices_snd]; split
  · exact Or.inr rfl
  · exact Or.inl rfl

theorem stop_injecting_injectors_lookup (s : DaemonState) (d k : String) :
    alookup k (stop_injecting s d).injectors =
      if (alookup d s.injectors).isSome ∧ d = k then
        some InjectorState.stopped
      else alookup k s.injectors := by
  unfold stop_injecting
  cases h : alookup d s.injectors with
  | none => simp [h]
  | some st =>
    simp only [h, Option.isSome_some, true_and]
    rw [alookup_aupsert]

theorem stop_injecting_history_lookup (s : DaemonState) (d k : String) :
    alookup k (stop_injecting s d).autoload_history =
      if (alookup d s.injectors).isSome ∧ d = k then none
      else alookup k s.autoload_history := by
  unfold stop_injecting
  cases h : alookup d s.injectors with
  | none => simp [h]
  | some st =>
    simp only [h, Option.isSome_some, true_and]
    rw [forget, alookup_aerase]

theorem stop_injecting_frame (s : DaemonState) (d : String) :
    (stop_injecting s d).config_dir = s.config_dir ∧
    (stop_injecting s d).devices = s.devices ∧
    (stop_injecting s d).autoload_config = s.autoload_config ∧
    (stop_injecting s d).refreshed_devices_at = s.refreshed_devices_at := by
  unfold stop_injecting
  cases alookup d s.injectors <;> simp

theorem start_injecting_frame (env : Env) (now : Time) (s : DaemonState)
    (device preset : String) :
    (start_injecting env now s device preset).2.config_dir = s.config_dir ∧
    (start_injecting env now s device preset).2.autoload_config =
      s.autoload_config ∧
    ((start_injecting env now s device preset).2.devices = s.devices ∨
      (start_injecting env now s device preset).2.devices =
        env.freshDevices) := by
  have hc := refresh_devices_config_dir env now s (some device)
  have ha := refresh_devices_autoload_config env now s (some device)
  have hd := refresh_devices_devices env now s (some device)
  have hsf := stop_injecting_frame (refresh_devices env now s (some device)).2
  unfold start_injecting
  dsimp only
  split
  · exact ⟨hc, ha, hd⟩
  · exact ⟨hc, ha, hd⟩
  · split
    · exact ⟨hc, ha, hd⟩
    · split
      · split
        · exact ⟨(hsf _).1.trans hc, (hsf _).2.2.1.trans ha,
            (hsf _).2.1 ▸ hd⟩
        · exact ⟨hc, ha, hd⟩
      · exact ⟨hc, ha, hd⟩

theorem foldl_stop_preserves_stopped (ks : List String) (st : DaemonState)
    (d : String)
    (h : alookup d st.injectors = some InjectorState.stopped) :
    alookup d (ks.foldl stop_injecting st).injectors =
      some InjectorState.stopped := by
  induction ks generalizing st with
  | nil => exact h
  | cons k ks ih =>
    rw [List.foldl_cons]
    apply ih
    rw [stop_injecting_injectors_lookup]
    by_cases hk : (alookup k st.injectors).isSome ∧ k = d
    · rw [if_pos hk]
    · rw [if_neg hk]; exact h

theorem foldl_stop_hist_none (ks : List String) (st : DaemonState)
    (d : String) (h : alookup d st.autoload_history = none) :
    alookup d (ks.foldl stop_injecting st).autoload_history = none := by
  induction ks generalizing st with
  | nil => exact h
  | cons k ks ih =>
    rw [List.foldl_cons]
    apply ih
    rw [stop_injecting_history_lookup]
    by_cases hk : (alookup k st.injectors).isSome ∧ k = d
    · rw [if_pos hk]
    · rw [if_neg hk]; exact h

theorem foldl_stop_mem_stopped (ks : List String) (st : DaemonState)
    (d : String) (hmem : d ∈ ks)
    (hreg : (alookup d st.injectors).isSome = true) :
    alookup d (ks.foldl stop_injecting st).injectors =
      some InjectorState.stopped := by
  induction ks generalizing st with
  | nil => cases hmem
  | cons k ks ih =>
    rw [List.foldl_cons]
    rcases List.mem_cons.mp hmem with heq | hmem2
    · apply foldl_stop_preserves_stopped
      rw [stop_injecting_injectors_lookup, if_pos ⟨heq ▸ hreg, heq.symm⟩]
    · refine ih _ hmem2 ?_
      rw [stop_injecting_injectors_lookup]
      by_cases hk : (alookup k st.injectors).isSome ∧ k = d
      · rw [if_pos hk]; rfl
      · rw [if_neg hk]; exact hreg

theorem foldl_stop_mem_hist_none (ks : List String) (st : DaemonState)
    (d : String) (hmem : d ∈ ks)
    (hreg : (alookup d st.injectors).isSome = true) :
    alookup d (ks.foldl stop_injecting st).autoload_history = none := by
  induction ks generalizing st with
  | nil => cases hmem
  | cons k ks ih =>
    rw [List.foldl_cons]
    rcases List.mem_cons.mp hmem with heq | hmem2
    · apply foldl_stop_hist_none
      rw [stop_injecting_history_lookup, if_pos ⟨heq ▸ hreg, heq.symm⟩]
    · refine ih _ hmem2 ?_
      rw [stop_injecting_injectors_lookup]
      by_cases hk : (alookup k st.injectors).isSome ∧ k = d
      · rw [if_pos hk]; rfl
      · rw [if_neg hk]; exact hreg

/-- C1 counterexample: with a running pipeline registered for `kbd`,
`stop_injecting` (and `stop_all`) leave the registry entry in place with its
handle in the stopped state — the registry entry is not removed, so the
claim that the registry never contains a stopped handle after stopping is
false at this input. The repository test suite asserts this behaviour
(`test_start_stop` expects `daemon.injectors[device].get_state()` to be
`STOPPED` after `stop_injecting`). -/
theorem stop_injecting_keeps_stopped_entry_cex :
    (stop_injecting exRunning "kbd").injectors =
      [("kbd", InjectorState.stopped)] ∧
    (stop_all exRunning).injectors = [("kbd", InjectorState.stopped)] := by
  constructor <;> decide

/-- C1 (amended): stopping a registered pipeline asks the handle to stop but
does not evict its registry entry: after `stop_injecting` on a device with a
registered pipeline, and likewise after `stop_all`, the registry still holds
an entry for the device whose handle is stopped; the entry is only replaced
by a subsequent `start_injecting`. -/
theorem stop_injecting_marks_stopped (s : DaemonState) (device : String)
    (h : (alookup device s.injectors).isSome = true) :
    alookup device (stop_injecting s device).injectors =
      some InjectorState.stopped ∧
    alookup device (stop_all s).injectors = some InjectorState.stopped := by
  constructor
  · rw [stop_injecting_injectors_lookup, if_pos ⟨h, rfl⟩]
  · have hmem : device ∈ akeys s.injectors := by
      rcases Option.isSome_iff_exists.mp h with ⟨v, hv⟩
      exact alookup_mem_akeys hv
    exact foldl_stop_mem_stopped _ _ _ hmem h

theorem stop_injecting_marks_stopped_witness :
    (alookup "kbd" exRunning.injectors).isSome = true ∧
    (alookup "kbd" (stop_injecting exRunning "kbd").injectors =
        some InjectorState.stopped ∧
      alookup "kbd" (stop_all exRunning).injectors =
        some InjectorState.stopped) :=
  ⟨by decide, stop_injecting_marks_stopped exRunning "kbd" (by decide)⟩

/-- C7: `stop_injecting` on a device with no registered pipeline is a silent
no-op that returns the daemon state completely unchanged; on a device with a
registered pipeline it stops that pipeline (the entry of the device becomes
stopped) and removes exactly the autoload-history entry of that device. -/
theorem stop_injecting_noop_or_stop (s : DaemonState) (device : String) :
    (alookup device s.injectors = none → stop_injecting s device = s) ∧
    ((alookup device s.injectors).isSome = true →
      alookup device (stop_injecting s device).injectors =
        some InjectorState.stopped ∧
      alookup device (stop_injecting s device).autoload_history = none ∧
      (stop_injecting s device).config_dir = s.config_dir ∧
      ∀ k, k ≠ device →
        alookup k (stop_injecting s device).autoload_history =
          alookup k s.autoload_history) := by
  constructor
  · intro h
    unfold stop_injecting
    rw [h]
  · intro h
    refine ⟨?_, ?_, (stop_injecting_frame s device).1, ?_⟩
    · rw [stop_injecting_injectors_lookup, if_pos ⟨h, rfl⟩]
    · rw [stop_injecting_history_lookup, if_pos ⟨h, rfl⟩]
    · intro k hk
      rw [stop_injecting_history_lookup,
        if_neg (fun hc => hk hc.2.symm)]

theorem stop_injecting_noop_or_stop_witness :
    (alookup "mouse" exRunning.injectors = none ∧
      stop_injecting exRunning "mouse" = exRunning) ∧
    ((alookup "kbd" exRunning.injectors).isSome = true ∧
      alookup "kbd" (stop_injecting exRunning "kbd").autoload_history =
        none) :=
  ⟨⟨by decide, (stop_injecting_noop_or_stop exRunning "mouse").1 (by decide)⟩,
   ⟨by decide,
    ((stop_injecting_noop_or_stop exRunning "kbd").2 (by decide)).2.1⟩⟩

/-- C10: after `stop_all`, every device that had a registered pipeline has
no autoload-history entry left, so a later autoload for such a device is
always approved by `may_autoload`. -/
theorem stop_all_clears_history (s : DaemonState) (device : String)
    (h : (alookup device s.injectors).isSome = true) :
    alookup device (stop_all s).autoload_history = none ∧
    ∀ (now : Time) (preset : String),
      may_autoload now (stop_all s).autoload_history device preset = true := by
  have hmem : device ∈ akeys s.injectors := by
    rcases Option.isSome_iff_exists.mp h with ⟨v, hv⟩
    exact alookup_mem_akeys hv
  have hnone : alookup device (stop_all s).autoload_history = none :=
    foldl_stop_mem_hist_none _ _ _ hmem h
  exact ⟨hnone, fun now preset => by simp [may_autoload, hnone]⟩

theorem stop_all_clears_history_witness :
    (alookup "kbd" exRunning.injectors).isSome = true ∧
    alookup "kbd" (stop_all exRunning).autoload_history = none :=
  ⟨by decide, (stop_all_clears_history exRunning "kbd" (by decide)).1⟩

/-- C2: `may_autoload` approves exactly when there is no history entry for
the device, or the stored preset differs from the requested one, or the
stored timestamp is strictly older than `now` minus 15 seconds; a device
with no history entry is always approved; after `remember(device, preset)`
the same device and preset are refused exactly until more than 15 seconds
have elapsed, while a different requested preset is always approved. -/
theorem may_autoload_spec (now t : Time)
    (history : List (String × (Time × String)))
    (device preset p2 : String) :
    (may_autoload now history device preset = true ↔
      alookup device history = none ∨
        ∃ t0 p0, alookup device history = some (t0, p0) ∧
          (p0 ≠ preset ∨ t0 < now - 15)) ∧
    (alookup device history = none →
      may_autoload now history device preset = true) ∧
    (may_autoload now (remember t device preset history) device preset =
        true ↔ t < now - 15) ∧
    (p2 ≠ preset →
      may_autoload now (remember t device preset history) device p2 =
        true) := by
  refine ⟨?_, ?_, ?_, ?_⟩
  · cases h : alookup device history with
    | none => simp [may_autoload, h]
    | some tp =>
      obtain ⟨t0, p0⟩ := tp
      by_cases hp : p0 = preset <;> by_cases ht : t0 < now - 15 <;>
        simp [may_autoload, h, hp, ht]
      · exact ⟨t0, preset, ⟨rfl, rfl⟩, Or.inr ht⟩
      · linarith [not_lt.mp ht]
      · exact ⟨t0, p0, ⟨rfl, rfl⟩, Or.inl hp⟩
      · exact ⟨t0, p0, ⟨rfl, rfl⟩, Or.inl hp⟩
  · intro h; simp [may_autoload, h]
  · have hl : alookup device (remember t device preset history) =
        some (t, preset) := by
      rw [remember, alookup_aupsert, if_pos rfl]
    by_cases ht : t < now - 15 <;> simp [may_autoload, hl, ht]
  · intro hp
    have hl : alookup device (remember t device preset history) =
        some (t, preset) := by
      rw [remember, alookup_aupsert, if_pos rfl]
    simp only [may_autoload, hl]
    have hne : preset ≠ p2 := fun hh => hp hh.symm
    simp [hne]

theorem may_autoload_spec_witness :
    ((0 : ℚ) < 16 - 15) ∧
    may_autoload 16 (remember 0 "kbd" "p1" []) "kbd" "p1" = true :=
  ⟨by norm_num,
   (may_autoload_spec 16 0 [] "kbd" "p1" "p2").2.2.1.mpr (by norm_num)⟩

/-- C5: with no configuration directory set, `start_injecting` returns
false for every device and preset and registers no pipeline: the injector
registry is unchanged by the failed call, and the configuration directory
stays unset (the embedding is a total function, so no exception can be
raised). -/
theorem start_injecting_no_config_dir (env : Env) (now : Time)
    (s : DaemonState) (device preset : String)
    (h : s.config_dir = none) :
    (start_injecting env now s device preset).1 = false ∧
    (start_injecting env now s device preset).2.injectors = s.injectors ∧
    (start_injecting env now s device preset).2.config_dir = none := by
  have h1 : (refresh_devices env now s (some device)).2.config_dir = none :=
    (refresh_devices_config_dir env now s (some device)).trans h
  have h2 := refresh_devices_injectors env now s (some device)
  unfold start_injecting
  dsimp only
  rw [h1]
  exact ⟨rfl, h2, h1⟩

theorem start_injecting_no_config_dir_witness :
    exNoCfg.config_dir = none ∧
    (start_injecting exEnv 0 exNoCfg "kbd" "p1").1 = false :=
  ⟨rfl, (start_injecting_no_config_dir exEnv 0 exNoCfg "kbd" "p1" rfl).1⟩

/-- C6: `set_config_dir` on a directory that holds no `config.json`
manifest is a complete no-op that returns the state unchanged (previously
active directory untouched, nothing loaded, no exception since the
embedding is total); when the manifest exists, the active directory is
replaced and the configuration found at the manifest path is loaded, while
registered injectors are untouched. -/
theorem set_config_dir_spec (env : Env) (s : DaemonState) (dir : String) :
    ((dir ++ "/config.json") ∉ env.files → set_config_dir env s dir = s) ∧
    ((dir ++ "/config.json") ∈ env.files →
      (set_config_dir env s dir).config_dir = some dir ∧
      (set_config_dir env s dir).autoload_config =
        env.configAt (dir ++ "/config.json") ∧
      (set_config_dir env s dir).injectors = s.injectors) := by
  constructor
  · intro h
    unfold set_config_dir
    rw [if_neg h]
  · intro h
    unfold set_config_dir
    rw [if_pos h]
    exact ⟨rfl, rfl, rfl⟩

theorem set_config_dir_spec_witness :
    (("/nope" ++ "/config.json") ∉ exEnv.files ∧
      set_config_dir exEnv exIdle "/nope" = exIdle) ∧
    (("/cfg" ++ "/config.json") ∈ exEnv.files ∧
      (set_config_dir exEnv exIdle "/cfg").config_dir = some "/cfg") :=
  ⟨⟨by decide, (set_config_dir_spec exEnv exIdle "/nope").1 (by decide)⟩,
   ⟨by decide, ((set_config_dir_spec exEnv exIdle "/cfg").2 (by decide)).1⟩⟩

/-- C4: when a pipeline is already registered for the device and the
requested preset file does not exist under the configuration directory,
`start_injecting` returns false and the previously registered pipeline is
neither stopped nor removed: the preset-file check happens before the
existing pipeline is touched, so the injector registry is exactly as before
the call. -/
theorem start_injecting_missing_preset_keeps_running (env : Env)
    (now : Time) (s : DaemonState) (device preset cdir : String)
    (st : InjectorState)
    (hpath : startswith device "/dev/input/" = false)
    (hdev : alookup device s.devices ≠ none)
    (hfresh : alookup device env.freshDevices ≠ none)
    (hcfg : s.config_dir = some cdir)
    (hreg : alookup device s.injectors = some st)
    (hfile : preset_path cdir device preset ∉ env.files) :
    (start_injecting env now s device preset).1 = false ∧
    (start_injecting env now s device preset).2.injectors = s.injectors ∧
    alookup device (start_injecting env now s device preset).2.injectors =
      some st := by
  have hc : (refresh_devices env now s (some device)).2.config_dir =
      some cdir :=
    (refresh_devices_config_dir env now s (some device)).trans hcfg
  have hj := refresh_devices_injectors env now s (some device)
  have hres : path_to_device_name
      (refresh_devices env now s (some device)).2.devices device =
        some device := by
    unfold path_to_device_name
    rw [hpath]
    simp
  have hmem : alookup device
      (refresh_devices env now s (some device)).2.devices ≠ none := by
    rcases refresh_devices_devices env now s (some device) with hh | hh <;>
      rw [hh]
    · exact hdev
    · exact hfresh
  unfold start_injecting
  dsimp only
  rw [hc, hres]
  dsimp only
  rw [if_neg hmem, if_neg hfile]
  exact ⟨rfl, hj, hj ▸ hreg⟩

theorem start_injecting_missing_preset_keeps_running_witness :
    (startswith "kbd" "/dev/input/" = false ∧
      alookup "kbd" exRunning.devices ≠ none ∧
      alookup "kbd" exEnv.freshDevices ≠ none ∧
      exRunning.config_dir = some "/cfg" ∧
      alookup "kbd" exRunning.injectors = some InjectorState.running ∧
      preset_path "/cfg" "kbd" "p9" ∉ exEnv.files) ∧
    ((start_injecting exEnv 0 exRunning "kbd" "p9").1 = false ∧
      (start_injecting exEnv 0 exRunning "kbd" "p9").2.injectors =
        exRunning.injectors ∧
      alookup "kbd"
          (start_injecting exEnv 0 exRunning "kbd" "p9").2.injectors =
        some InjectorState.running) :=
  ⟨⟨by decide, by decide, by decide, rfl, by decide, by decide⟩,
   start_injecting_missing_preset_keeps_running exEnv 0 exRunning "kbd"
     "p9" "/cfg" InjectorState.running (by decide) (by decide) (by decide)
     rfl (by decide) (by decide)⟩

/-- C8: `refresh_devices` forces a registry refresh and stamps the
last-refresh time exactly under the condition the spec states
(`refresh_forced_spec`); a non-forced call returns the state completely
untouched. -/
theorem refresh_devices_spec (env : Env) (now : Time) (s : DaemonState)
    (device : Option String) :
    ((refresh_devices env now s device).1 = true ↔
      refresh_forced_spec s now device) ∧
    ((refresh_devices env now s device).1 = true →
      (refresh_devices env now s device).2.refreshed_devices_at = now) ∧
    ((refresh_devices env now s device).1 = false →
      (refresh_devices env now s device).2 = s) := by
  refine ⟨?_, ?_, ?_⟩
  · cases device with
    | none =>
      unfold refresh_devices refresh_forced_spec
      by_cases h : s.refreshed_devices_at < now - 10
      · rw [if_pos h]
        constructor
        · intro _
          exact Or.inl (by linarith)
        · intro _
          rfl
      · rw [if_neg h]
        constructor
        · intro hfalse
          simp at hfalse
        · rintro (h10 | ⟨d, hd, _⟩)
          · exact absurd (by linarith : s.refreshed_devices_at < now - 10) h
          · cases hd
    | some d =>
      unfold refresh_devices refresh_forced_spec
      by_cases h : s.refreshed_devices_at < now - 10
      · rw [if_pos h]
        constructor
        · intro _
          exact Or.inl (by linarith)
        · intro _
          rfl
      · rw [if_neg h]
        dsimp only
        by_cases hp : startswith d "/dev/input/" = true
        · rw [if_pos hp]
          by_cases hk : pathKnown s.devices d = true
          · rw [if_pos hk]
            constructor
            · intro hfalse
              simp at hfalse
            · rintro (h10 | ⟨d2, hd2, hcl⟩)
              · exact absurd (by linarith :
                  s.refreshed_devices_at < now - 10) h
              · injection hd2 with he
                rw [← he, if_pos hp] at hcl
                rw [hk] at hcl
                cases hcl
          · rw [if_neg hk]
            constructor
            · intro _
              refine Or.inr ⟨d, rfl, ?_⟩
              rw [if_pos hp]
              exact Bool.eq_false_iff.mpr (fun hh => hk hh)
            · intro _
              rfl
        · rw [if_neg hp]
          by_cases hn : alookup d s.devices = none
          · rw [if_pos hn]
            constructor
            · intro _
              refine Or.inr ⟨d, rfl, ?_⟩
              rw [if_neg hp]
              exact hn
            · intro _
              rfl
          · rw [if_neg hn]
            constructor
            · intro hfalse
              simp at hfalse
            · rintro (h10 | ⟨d2, hd2, hcl⟩)
              · exact absurd (by linarith :
                  s.refreshed_devices_at < now - 10) h
              · injection hd2 with he
                rw [← he, if_neg hp] at hcl
                exact absurd hcl hn
  · intro h
    rw [refresh_devices_snd, h]
    rfl
  · intro h
    rw [refresh_devices_snd, h]
    rfl

theorem refresh_devices_spec_witness :
    (refresh_devices exEnv 20 exIdle none).1 = true ∧
    (refresh_devices exEnv 20 exIdle none).2.refreshed_devices_at = 20 := by
  have h : (refresh_devices exEnv 20 exIdle none).1 = true := by
    simp +decide [refresh_devices, exIdle]
  exact ⟨h, (refresh_devices_spec exEnv 20 exIdle none).2.1 h⟩

theorem findGroup_mem {path n : String}
    {devices : List (String × List String)}
    (h : findGroup path devices = some n) : n ∈ akeys devices := by
  induction devices with
  | nil => cases h
  | cons hd tl ih =>
    obtain ⟨name, paths⟩ := hd
    by_cases hp : path ∈ paths
    · simp only [findGroup, if_pos hp] at h
      injection h with h
      simp [akeys, h]
    · simp only [findGroup, if_neg hp] at h
      simp only [akeys, List.map_cons, List.mem_cons]
      exact Or.inr (by simpa [akeys] using ih h)

/-- C9: device-identity resolution is idempotent. Any identifier that is
not a raw-path-shaped string resolves to itself unchanged; and whenever
resolution yields a logical name (registry device names being logical
names, that is not raw-path-shaped strings), resolving that name again
yields the same name, so resolution composed with itself equals
resolution. -/
theorem resolve_idempotent (devices : List (String × List String))
    (x n : String)
    (hnames : ∀ d ∈ akeys devices, startswith d "/dev/input/" = false) :
    (startswith x "/dev/input/" = false →
      path_to_device_name devices x = some x) ∧
    (path_to_device_name devices x = some n →
      path_to_device_name devices n = some n) := by
  constructor
  · intro hx
    unfold path_to_device_name
    rw [hx]
    simp
  · intro hres
    unfold path_to_device_name at hres ⊢
    by_cases hx : startswith x "/dev/input/" = true
    · rw [if_pos hx] at hres
      have hn := hnames n (findGroup_mem hres)
      rw [hn]
      simp
    · rw [if_neg hx] at hres
      injection hres with he
      rw [← he]
      rw [if_neg hx]

theorem resolve_idempotent_witness :
    (∀ d ∈ akeys exDevices, startswith d "/dev/input/" = false) ∧
    path_to_device_name exDevices "/dev/input/event3" = some "kbd" ∧
    path_to_device_name exDevices "kbd" = some "kbd" := by
  have hn : ∀ d ∈ akeys exDevices, startswith d "/dev/input/" = false := by
    decide
  have hres : path_to_device_name exDevices "/dev/input/event3" =
      some "kbd" := by decide
  exact ⟨hn, hres,
    (resolve_idempotent exDevices "/dev/input/event3" "kbd" hn).2 hres⟩

theorem may_autoload_some (now t : Time)
    (history : List (String × (Time × String))) (device preset : String)
    (h : alookup device history = some (t, preset)) :
    may_autoload now history device preset = decide (t < now - 15) := by
  unfold may_autoload
  rw [h]
  simp

/-- Behaviour of one `_autoload` call for a device that resolves to itself,
is present in the current and in the refreshed registry snapshot, and has a
well-formed configured autoload preset: the call invokes `start_injecting`
exactly when `may_autoload` approves against the pre-call history; on
approval the attempt is recorded in the history; on refusal the history is
untouched; the configured autoload table is preserved either way, and the
device stays locatable in the resulting snapshot. -/
theorem autoload_device_char (env : Env) (now : Time) (s : DaemonState)
    (dev preset : String)
    (hpath : startswith dev "/dev/input/" = false)
    (hdev : alookup dev s.devices ≠ none)
    (hfresh : alookup dev env.freshDevices ≠ none)
    (hcfg : alookup dev s.autoload_config =
      some (ConfigValue.str preset)) :
    (autoload_device env now s dev).1 =
      may_autoload now s.autoload_history dev preset ∧
    ((autoload_device env now s dev).1 = true →
      alookup dev (autoload_device env now s dev).2.autoload_history =
        some (now, preset)) ∧
    ((autoload_device env now s dev).1 = false →
      (autoload_device env now s dev).2.autoload_history =
        s.autoload_history) ∧
    (autoload_device env now s dev).2.autoload_config =
      s.autoload_config ∧
    alookup dev (autoload_device env now s dev).2.devices ≠ none := by
  have hres : path_to_device_name
      (refresh_devices env now s (some dev)).2.devices dev = some dev := by
    unfold path_to_device_name
    rw [hpath]
    simp
  have hmem1 : alookup dev
      (refresh_devices env now s (some dev)).2.devices ≠ none := by
    rcases refresh_devices_devices env now s (some dev) with hh | hh <;>
      rw [hh]
    · exact hdev
    · exact hfresh
  have hcfg1 : alookup dev
      (refresh_devices env now s (some dev)).2.autoload_config =
        some (ConfigValue.str preset) := by
    rw [refresh_devices_autoload_config]
    exact hcfg
  have hhist1 :
      (refresh_devices env now s (some dev)).2.autoload_history =
        s.autoload_history := refresh_devices_history env now s (some dev)
  have hsif := start_injecting_frame env now
      (refresh_devices env now s (some dev)).2 dev preset
  unfold autoload_device
  dsimp only
  rw [hres]
  dsimp only
  rw [if_neg hmem1, hcfg1]
  dsimp only
  rw [hhist1]
  by_cases hma : may_autoload now s.autoload_history dev preset = true
  · rw [if_pos hma]
    refine ⟨hma.symm, ?_, ?_, ?_, ?_⟩
    · intro _
      dsimp only
      unfold remember
      rw [alookup_aupsert, if_pos rfl]
    · intro hfalse
      simp at hfalse
    · exact hsif.2.1.trans
        (refresh_devices_autoload_config env now s (some dev))
    · rcases hsif.2.2 with hd2 | hd2 <;> dsimp only <;> rw [hd2]
      · exact hmem1
      · exact hfresh
  · rw [if_neg hma]
    refine ⟨(Bool.eq_false_iff.mpr hma).symm, ?_, ?_, ?_, ?_⟩
    · intro htrue
      simp at htrue
    · intro _
      exact hhist1
    · exact refresh_devices_autoload_config env now s (some dev)
    · exact hmem1

/-- C3: for a device with a configured autoload preset (well-formed setup:
the identifier is not path-shaped, the device is locatable in the current
and in the refreshed snapshot, and no history entry exists yet), the first
`_autoload` call invokes `start_injecting` and records the attempt in the
history afterwards; a second `_autoload` call `delta` seconds later does not
invoke `start_injecting` when `delta` is at most 15 (debounced: exactly one
invocation across the two calls), and invokes it again when `delta` exceeds
15 (two invocations). -/
theorem autoload_debounce (env : Env) (s : DaemonState) (t delta : Time)
    (dev preset : String)
    (hpath : startswith dev "/dev/input/" = false)
    (hdev : alookup dev s.devices ≠ none)
    (hfresh : alookup dev env.freshDevices ≠ none)
    (hcfg : alookup dev s.autoload_config =
      some (ConfigValue.str preset))
    (hhist : alookup dev s.autoload_history = none) :
    (autoload_device env t s dev).1 = true ∧
    alookup dev (autoload_device env t s dev).2.autoload_history =
      some (t, preset) ∧
    (delta ≤ 15 →
      (autoload_device env (t + delta)
          (autoload_device env t s dev).2 dev).1 = false) ∧
    (15 < delta →
      (autoload_device env (t + delta)
          (autoload_device env t s dev).2 dev).1 = true) := by
  have hchar1 :=
    autoload_device_char env t s dev preset hpath hdev hfresh hcfg
  have hb1 : (autoload_device env t s dev).1 = true := by
    rw [hchar1.1]
    simp [may_autoload, hhist]
  have hrec : alookup dev
      (autoload_device env t s dev).2.autoload_history =
        some (t, preset) := hchar1.2.1 hb1
  have hdev1 : alookup dev (autoload_device env t s dev).2.devices ≠
      none := hchar1.2.2.2.2
  have hcfg1 : alookup dev
      (autoload_device env t s dev).2.autoload_config =
        some (ConfigValue.str preset) := by
    rw [hchar1.2.2.2.1]
    exact hcfg
  have hchar2 := autoload_device_char env (t + delta)
    (autoload_device env t s dev).2 dev preset hpath hdev1 hfresh hcfg1
  have hma2 := may_autoload_some (t + delta) t
    (autoload_device env t s dev).2.autoload_history dev preset hrec
  refine ⟨hb1, hrec, ?_, ?_⟩
  · intro hdel
    rw [hchar2.1, hma2]
    simp only [decide_eq_false_iff_not, not_lt]
    linarith
  · intro hdel
    rw [hchar2.1, hma2]
    simp only [decide_eq_true_eq]
    linarith

theorem autoload_debounce_witness :
    (startswith "kbd" "/dev/input/" = false ∧
      alookup "kbd" exIdle.devices ≠ none ∧
      alookup "kbd" exEnv.freshDevices ≠ none ∧
      alookup "kbd" exIdle.autoload_config =
        some (ConfigValue.str "p1") ∧
      alookup "kbd" exIdle.autoload_history = none) ∧
    ((autoload_device exEnv 0 exIdle "kbd").1 = true ∧
      (autoload_device exEnv (0 + 1)
          (autoload_device exEnv 0 exIdle "kbd").2 "kbd").1 = false ∧
      (autoload_device exEnv (0 + 16)
          (autoload_device exEnv 0 exIdle "kbd").2 "kbd").1 = true) := by
  have h1 := autoload_debounce exEnv exIdle 0 1 "kbd" "p1" (by decide)
    (by decide) (by decide) (by decide) (by decide)
  have h16 := autoload_debounce exEnv exIdle 0 16 "kbd" "p1" (by decide)
    (by decide) (by decide) (by decide) (by decide)
  exact ⟨⟨by decide, by decide, by decide, by decide, by decide⟩,
    h1.1, h1.2.2.1 (by norm_num), h16.2.2.2 (by norm_num)⟩

end KeyMapper
